import Mathlib

/-!
Verification development for the AudioQueuePlayFileExample repository
(src/PlayingAudioExample/main.cpp).

Modelling conventions:
* `UInt32` / `SInt64` quantities are modelled as `Nat` / `Int`; the program
  never approaches the 32/64-bit bounds on the inputs considered, and wherever
  a claim is quantified universally the proofs hold for arbitrary values, so
  no modular wrap is introduced.
* `Float64` arithmetic (`mSampleRate`, `seconds`) is modelled by exact
  rational arithmetic.  Every concrete input used in a counterexample is
  chosen so that the corresponding binary64 computation is exact (sample
  rates and packet sizes that are powers of two or exactly representable,
  divisors that are powers of two), hence the rational model and the C
  program agree at those points.
* The C conversion of a nonnegative `Float64` to `UInt32` truncates toward
  zero; it is modelled by `Nat.floor` (`⌊·⌋₊`).
* The audio file is modelled as a pure read function
  `cursor → byteCapacity → packetsWanted → (bytesRead, packetsRead)`,
  standing for `AudioFileReadPacketData`.
* Calls into the audio queue (`AudioQueueEnqueueBuffer`, `AudioQueueStop`)
  are modelled as emitted `QueueCommand` values; the `AudioStreamPacketDescription`
  pointer is modelled by the `Bool` `mPacketDescs` (`true` = non-NULL array).
-/

/-- The fields of `AudioStreamBasicDescription` that the program reads. -/
structure AudioFormat where
  mSampleRate : ℚ
  mFramesPerPacket : Nat
  mBytesPerPacket : Nat
deriving DecidableEq, Repr

/-- Constant `kNumberBuffers = 3` from main.cpp line 20. -/
def kNumberBuffers : Nat := 3

/-- The mutable playback state `struct AQPlayerState` (main.cpp lines 22-76).
The `mQueue`, `mAudioFile` and `mBuffers` handles are not part of the state
model: the file handle is abstracted by the read function, the queue by the
emitted commands. -/
structure AQPlayerState where
  mDataFormat : AudioFormat
  bufferByteSize : Nat
  mCurrentPacket : Int
  mNumPacketsToRead : Nat
  /-- Whether `mPacketDescs` is a non-NULL descriptor array. -/
  mPacketDescs : Bool
  mIsRunning : Bool
deriving DecidableEq, Repr

/-- One `AudioQueueBuffer`; only its `mAudioDataByteSize` field is written by
the modelled code. -/
structure AudioQueueBuffer where
  mAudioDataByteSize : Nat
deriving DecidableEq, Repr

/-- A call into the audio queue observed during one callback invocation. -/
inductive QueueCommand where
  /-- `AudioQueueEnqueueBuffer(aq, buf, count, descs)`: `usedByteSize` is the
  buffer's `mAudioDataByteSize` at the call, `packetDescCount` the third
  argument, `descsPassed` whether the fourth argument is a non-NULL array. -/
  | enqueue (usedByteSize : Nat) (packetDescCount : Nat) (descsPassed : Bool)
  /-- `AudioQueueStop(aq, immediate)`. -/
  | stop (immediate : Bool)
deriving DecidableEq, Repr

/-- The result of `AudioFileReadPacketData` as a pure function of the packet
cursor, the byte capacity handed in, and the packet count requested:
`(bytes actually read, packets actually read)`. -/
def ReadFn : Type := Int → Nat → Nat → Nat × Nat

/-- The audio queue output callback `HandleOutputBuffer` (main.cpp lines
80-132), as a pure transition: it returns the updated player state, the
buffer after the callback wrote to it, and the list of audio queue calls it
made, in order. -/
def HandleOutputBuffer (read : ReadFn) (s : AQPlayerState) (buf : AudioQueueBuffer) :
    AQPlayerState × AudioQueueBuffer × List QueueCommand :=
  if !s.mIsRunning then
    (s, buf, [])
  else
    let r := read s.mCurrentPacket s.bufferByteSize s.mNumPacketsToRead
    if 0 < r.2 then
      ({ s with mCurrentPacket := s.mCurrentPacket + (r.2 : Int) },
       { buf with mAudioDataByteSize := r.1 },
       [QueueCommand.enqueue r.1 (if s.mPacketDescs then r.2 else 0) s.mPacketDescs])
    else
      ({ s with mIsRunning := false }, buf, [QueueCommand.stop false])

/-- Constant `maxBufferSize = 0x50000` from `DeriveBufferSize` (main.cpp line 141). -/
def maxBufferSize : Nat := 0x50000

/-- Constant `minBufferSize = 0x4000` from `DeriveBufferSize` (main.cpp line 142). -/
def minBufferSize : Nat := 0x4000

/-- The value stored to `*outBufferSize` before the clamping block of
`DeriveBufferSize` (main.cpp lines 146-160).  In the fixed
frames-per-packet branch the C code computes
`numPacketsForTime = mSampleRate / mFramesPerPacket * seconds` in `Float64`
and truncates `numPacketsForTime * maxPacketSize` to `UInt32`. -/
def rawBufferSize (inDesc : AudioFormat) (maxPacketSize : Nat) (seconds : ℚ) : Nat :=
  if inDesc.mFramesPerPacket ≠ 0 then
    ⌊inDesc.mSampleRate / (inDesc.mFramesPerPacket : ℚ) * seconds * (maxPacketSize : ℚ)⌋₊
  else
    if maxBufferSize > maxPacketSize then maxBufferSize else maxPacketSize

/-- The clamping block of `DeriveBufferSize` (main.cpp lines 166-176). -/
def clampBufferSize (sz maxPacketSize : Nat) : Nat :=
  if sz > maxBufferSize ∧ sz > maxPacketSize then
    maxBufferSize
  else
    if sz < minBufferSize then minBufferSize else sz

/-- `DeriveBufferSize` (main.cpp lines 135-184): returns
`(*outBufferSize, *outNumPacketsToRead)`. -/
def DeriveBufferSize (inDesc : AudioFormat) (maxPacketSize : Nat) (seconds : ℚ) :
    Nat × Nat :=
  let sz := clampBufferSize (rawBufferSize inDesc maxPacketSize seconds) maxPacketSize
  (sz, sz / maxPacketSize)

/-- The test `isFormatVBR` from `AQPlayerState_AllocatePacketDescriptionsArray`
(main.cpp lines 347-348). -/
def isFormatVBR (d : AudioFormat) : Bool :=
  d.mBytesPerPacket == 0 || d.mFramesPerPacket == 0

/-- `AQPlayerState_AllocatePacketDescriptionsArray` (main.cpp lines 345-358):
the descriptor array is allocated exactly for variable-bit-rate formats and
left NULL for constant-bit-rate formats. -/
def AQPlayerState_AllocatePacketDescriptionsArray (s : AQPlayerState) : AQPlayerState :=
  { s with mPacketDescs := isFormatVBR s.mDataFormat }

/-- A buffer as returned by `AudioQueueAllocateBuffer`, before any data is
written to it.  The state component of `HandleOutputBuffer` does not depend
on the buffer argument, so iterating the callback may thread this buffer. -/
def freshBuffer : AudioQueueBuffer := ⟨0⟩

/-- State after `k` consecutive invocations of the refill callback
`HandleOutputBuffer`. -/
def runRefills (read : ReadFn) : Nat → AQPlayerState → AQPlayerState
  | 0, s => s
  | k + 1, s => runRefills read k (HandleOutputBuffer read s freshBuffer).1

/-- Number of packets the refill callback obtains from the file when invoked
in state `s`: zero when the callback returns early (`mIsRunning` false),
otherwise the packet count reported by `AudioFileReadPacketData`. -/
def packetsObtained (read : ReadFn) (s : AQPlayerState) : Nat :=
  if s.mIsRunning then
    (read s.mCurrentPacket s.bufferByteSize s.mNumPacketsToRead).2
  else 0

/-- Total number of packets obtained by `k` consecutive refill callbacks
starting from state `s`. -/
def totalPacketsRead (read : ReadFn) : Nat → AQPlayerState → Nat
  | 0, _ => 0
  | k + 1, s =>
      packetsObtained read s +
        totalPacketsRead read k (HandleOutputBuffer read s freshBuffer).1

/-- `AQPlayerState_AllocateBuffersAndPrime` (main.cpp lines 388-399): sets
`mCurrentPacket` to 0, then for `k = 0, 1, 2` allocates buffer `k` and
invokes `HandleOutputBuffer` on it synchronously.  The second component is
the log of buffer indices passed to `HandleOutputBuffer`, one entry per
invocation, in order. -/
def AQPlayerState_AllocateBuffersAndPrime (read : ReadFn) (s : AQPlayerState) :
    AQPlayerState × List Nat :=
  (List.range kNumberBuffers).foldl
    (fun acc k => ((HandleOutputBuffer read acc.1 freshBuffer).1, acc.2 ++ [k]))
    ({ s with mCurrentPacket := 0 }, [])

/-- OSStatus `noErr`. -/
def noErr : Int := 0

/-- OSStatus constants from AudioFile.h matched by `PrintResultCodes`
(four-character codes written as their numeric values). -/
def kAudioFileUnspecifiedError : Int := 0x7768743F

def kAudioFileUnsupportedFileTypeError : Int := 0x7479703F

def kAudioFileUnsupportedDataFormatError : Int := 0x666D743F

def kAudioFileUnsupportedPropertyError : Int := 0x7074793F

def kAudioFileBadPropertySizeError : Int := 0x2173697A

def kAudioFileNotOptimizedError : Int := 0x6F70746D

def kAudioFileInvalidChunkError : Int := 0x63686B3F

def kAudioFileDoesNotAllow64BitDataSizeError : Int := 0x6F66663F

def kAudioFileInvalidPacketOffsetError : Int := 0x70636B3F

def kAudioFileInvalidFileError : Int := 0x6474613F

def kAudioFileOperationNotSupportedError : Int := 0x6F703F3F

def kAudioFileNotOpenError : Int := -38

def kAudioFileEndOfFileError : Int := -39

def kAudioFilePositionError : Int := -40

def kAudio_FileNotFoundError : Int := -43

/-- OSStatus `kAudioFilePermissionsError` from AudioFile.h; a possible result
of `AudioFileOpenURL` that `PrintResultCodes` does not match. -/
def kAudioFilePermissionsError : Int := -54

/-- Observable behaviour of one diagnostic-reporting call: the message it
prints, if any, and whether it terminates the process. -/
structure CallOutcome where
  diagnostic : Option String
  terminates : Bool
deriving DecidableEq, Repr

/-- `PrintResultCodes` (main.cpp lines 187-240): for each of the fifteen
enumerated result codes it prints a message and then executes
`assert(false)`, terminating the process; for every other value, including
`noErr`, it hits the `default: return` case and does nothing. -/
def PrintResultCodes (code : Int) : CallOutcome :=
  if code = kAudioFileUnspecifiedError then ⟨some "File unspecified", true⟩
  else if code = kAudioFileUnsupportedFileTypeError then ⟨some "Unsupported file type", true⟩
  else if code = kAudioFileUnsupportedDataFormatError then ⟨some "Unsupported data format", true⟩
  else if code = kAudioFileUnsupportedPropertyError then ⟨some "Unsupported property", true⟩
  else if code = kAudioFileBadPropertySizeError then ⟨some "Bad property size", true⟩
  else if code = kAudioFileNotOptimizedError then ⟨some "File not optimized", true⟩
  else if code = kAudioFileInvalidChunkError then ⟨some "Invalid chunk", true⟩
  else if code = kAudioFileDoesNotAllow64BitDataSizeError then ⟨some "File does not allow 64 bit data size", true⟩
  else if code = kAudioFileInvalidPacketOffsetError then ⟨some "Invalid packet offset", true⟩
  else if code = kAudioFileInvalidFileError then ⟨some "Invalid file", true⟩
  else if code = kAudioFileOperationNotSupportedError then ⟨some "Operation not supported", true⟩
  else if code = kAudioFileNotOpenError then ⟨some "File not open", true⟩
  else if code = kAudioFileEndOfFileError then ⟨some "End of file", true⟩
  else if code = kAudioFilePositionError then ⟨some "Position", true⟩
  else if code = kAudio_FileNotFoundError then ⟨some "File not found", true⟩
  else ⟨none, false⟩

/-- `CheckError` (main.cpp lines 293-311): returns `none` when the status is
`noErr` (the call proceeds); otherwise `some (operation, 1)`, standing for
the diagnostic written to stderr followed by `exit(1)`. -/
def CheckError (error : Int) (operation : String) : Option (String × Nat) :=
  if error = noErr then none else some (operation, 1)

/-- How one program run ends. -/
inductive ProgOutcome where
  /-- The process called `exit(code)` or returned `code` from `main`. -/
  | exited (code : Nat)
  /-- The process died on the failed `assert` inside `PrintResultCodes`,
  after printing the given diagnostic. -/
  | aborted (diagnostic : String)
deriving DecidableEq, Repr

/-- Termination behaviour of `main` together with `AQPlayerState_Initialize`
(main.cpp lines 417-477), as a function of the three OS statuses the program
actually inspects: the `AudioFileOpenURL` status (routed to
`PrintResultCodes` inside `AQPlayerState_InitAudioFile`), the
`AudioQueueNewOutput` status and the `AudioQueueStart` status (each routed
to `CheckError`).  Every other status produced during initialization
(`AudioFileGetProperty`, `AudioQueueAllocateBuffer`, ...) is discarded by
the program, so it does not appear here.  When no inspected status stops the
process, `main` runs the playback loop and returns 0. -/
def mainOutcome (openStatus newOutputStatus startStatus : Int) : ProgOutcome :=
  let openReport := PrintResultCodes openStatus
  if openReport.terminates then
    ProgOutcome.aborted (openReport.diagnostic.getD "")
  else
    match CheckError newOutputStatus "AudioQueueNewOutput " with
    | some (_, code) => ProgOutcome.exited code
    | none =>
        match CheckError startStatus "AudioQueueStart" with
        | some (_, code) => ProgOutcome.exited code
        | none => ProgOutcome.exited 0

/-- The buffer-size formula stated by the spec for fixed frames-per-packet
formats, following the spec text word for word:
`bufferSize = ceil(sampleRate / framesPerPacket * targetSeconds) * maxPacketSize`.
This definition renders the SPEC's words (for comparison against
`rawBufferSize`, which renders the source). -/
def specCeilBufferSize (inDesc : AudioFormat) (maxPacketSize : Nat) (seconds : ℚ) : Nat :=
  ⌈inDesc.mSampleRate / (inDesc.mFramesPerPacket : ℚ) * seconds⌉₊ * maxPacketSize

/-- The clamping block never returns less than `minBufferSize`. -/
theorem min_le_clampBufferSize (sz mps : Nat) : minBufferSize ≤ clampBufferSize sz mps := by
  simp only [clampBufferSize, minBufferSize, maxBufferSize]
  split
  · norm_num
  · split
    · exact Nat.le_refl _
    · omega

/-- When a single packet fits under the upper bound, the clamping block never
returns more than `maxBufferSize`. -/
theorem clampBufferSize_le_max (sz mps : Nat) (h : mps ≤ maxBufferSize) :
    clampBufferSize sz mps ≤ maxBufferSize := by
  simp only [clampBufferSize, minBufferSize, maxBufferSize] at *
  split
  · exact Nat.le_refl _
  · split
    · omega
    · omega

/-- One callback invocation advances the cursor by exactly the number of
packets obtained (zero when not running or at end of stream). -/
theorem HandleOutputBuffer_cursor (read : ReadFn) (s : AQPlayerState)
    (buf : AudioQueueBuffer) :
    (HandleOutputBuffer read s buf).1.mCurrentPacket
      = s.mCurrentPacket + (packetsObtained read s : Int) := by
  simp only [HandleOutputBuffer, packetsObtained]
  cases h : s.mIsRunning with
  | false => simp
  | true =>
      simp only [Bool.not_true, Bool.false_eq_true, if_false, if_true]
      split
      · rfl
      · next hp =>
          have : (read s.mCurrentPacket s.bufferByteSize s.mNumPacketsToRead).2 = 0 := by
            omega
          simp [this]

/-- Running `k` callbacks advances the cursor by exactly the total number of
packets obtained. -/
theorem runRefills_cursor (read : ReadFn) :
    ∀ (k : Nat) (s : AQPlayerState),
      (runRefills read k s).mCurrentPacket
        = s.mCurrentPacket + (totalPacketsRead read k s : Int) := by
  intro k
  induction k with
  | zero => intro s; simp [runRefills, totalPacketsRead]
  | succ k ih =>
      intro s
      simp only [runRefills, totalPacketsRead]
      rw [ih, HandleOutputBuffer_cursor]
      push_cast
      ring

/-- C1: while running, if the read obtains `p > 0` packets and `b` bytes, the
callback sets the buffer's `mAudioDataByteSize` to exactly `b`, enqueues the
buffer with descriptor count 0 and a NULL descriptor array when the format is
constant-bit-rate (descriptor count `p` and the array when variable-bit-rate,
with `mPacketDescs` allocated according to the format), and advances the
cursor by exactly `p`. -/
theorem HandleOutputBuffer_success_enqueues
    (read : ReadFn) (s : AQPlayerState) (buf : AudioQueueBuffer) (b p : Nat)
    (hrun : s.mIsRunning = true)
    (hread : read s.mCurrentPacket s.bufferByteSize s.mNumPacketsToRead = (b, p))
    (hp : 0 < p)
    (hdesc : s.mPacketDescs = isFormatVBR s.mDataFormat) :
    HandleOutputBuffer read s buf =
      ({ s with mCurrentPacket := s.mCurrentPacket + (p : Int) },
       { buf with mAudioDataByteSize := b },
       [QueueCommand.enqueue b (if isFormatVBR s.mDataFormat then p else 0)
          (isFormatVBR s.mDataFormat)]) := by
  simp [HandleOutputBuffer, hrun, hread, hp, hdesc]

/-- Witness for C1 at a concrete constant-bit-rate state: the read yields
100 bytes and 5 packets, the buffer is enqueued with count 0 and no
descriptor array, and the cursor moves from 0 to 5. -/
theorem HandleOutputBuffer_success_enqueues_witness :
    HandleOutputBuffer (fun _ _ _ => (100, 5))
      ⟨⟨44100, 1, 4⟩, 327680, 0, 160, false, true⟩ ⟨0⟩ =
      ({ (⟨⟨44100, 1, 4⟩, 327680, 0, 160, false, true⟩ : AQPlayerState) with
           mCurrentPacket := (0 : Int) + ((5 : Nat) : Int) },
       { (⟨0⟩ : AudioQueueBuffer) with mAudioDataByteSize := 100 },
       [QueueCommand.enqueue 100
          (if isFormatVBR ⟨44100, 1, 4⟩ then 5 else 0) (isFormatVBR ⟨44100, 1, 4⟩)]) :=
  HandleOutputBuffer_success_enqueues (fun _ _ _ => (100, 5))
    ⟨⟨44100, 1, 4⟩, 327680, 0, 160, false, true⟩ ⟨0⟩ 100 5 rfl rfl (by decide) rfl

/-- C2: while running, if the read obtains zero packets, the callback calls
`AudioQueueStop` with `immediate = false` (the queue drains the buffers
already enqueued before stopping) and clears `mIsRunning`; no other command
is issued and the cursor is unchanged. -/
theorem HandleOutputBuffer_eof_drains_and_stops
    (read : ReadFn) (s : AQPlayerState) (buf : AudioQueueBuffer) (b : Nat)
    (hrun : s.mIsRunning = true)
    (hread : read s.mCurrentPacket s.bufferByteSize s.mNumPacketsToRead = (b, 0)) :
    HandleOutputBuffer read s buf =
      ({ s with mIsRunning := false }, buf, [QueueCommand.stop false]) := by
  simp [HandleOutputBuffer, hrun, hread]

/-- Witness for C2: a read returning zero packets in a running state yields
exactly the drain-stop command and clears the running flag. -/
theorem HandleOutputBuffer_eof_drains_and_stops_witness :
    HandleOutputBuffer (fun _ _ _ => (0, 0))
      ⟨⟨44100, 1, 4⟩, 327680, 7, 160, false, true⟩ ⟨0⟩ =
      ({ (⟨⟨44100, 1, 4⟩, 327680, 7, 160, false, true⟩ : AQPlayerState) with
           mIsRunning := false },
       (⟨0⟩ : AudioQueueBuffer), [QueueCommand.stop false]) :=
  HandleOutputBuffer_eof_drains_and_stops (fun _ _ _ => (0, 0))
    ⟨⟨44100, 1, 4⟩, 327680, 7, 160, false, true⟩ ⟨0⟩ 0 rfl rfl

/-- C8: when `mIsRunning` is false the callback is a no-op: the state and
the buffer are returned unchanged, no queue command is issued, and the
result does not depend on the read function (the file is not consulted). -/
theorem HandleOutputBuffer_not_running_noop
    (read : ReadFn) (s : AQPlayerState) (buf : AudioQueueBuffer)
    (h : s.mIsRunning = false) :
    HandleOutputBuffer read s buf = (s, buf, []) := by
  simp [HandleOutputBuffer, h]

/-- Witness for C8 at a concrete stopped state and a read function that
would report progress if it were consulted. -/
theorem HandleOutputBuffer_not_running_noop_witness :
    HandleOutputBuffer (fun _ _ _ => (100, 5))
      ⟨⟨44100, 1, 4⟩, 327680, 7, 160, false, false⟩ ⟨3⟩ =
      (⟨⟨44100, 1, 4⟩, 327680, 7, 160, false, false⟩, ⟨3⟩, []) :=
  HandleOutputBuffer_not_running_noop (fun _ _ _ => (100, 5))
    ⟨⟨44100, 1, 4⟩, 327680, 7, 160, false, false⟩ ⟨3⟩ rfl

/-- C6: the cursor is advanced by exactly the number of packets obtained at
each callback; starting from the primed cursor value 0, after `k` callbacks
it equals the total number of packets obtained by those callbacks; and it
never decreases over any run of callbacks. -/
theorem cursor_monotone_sum (read : ReadFn) (s : AQPlayerState)
    (buf : AudioQueueBuffer) (k : Nat) :
    (HandleOutputBuffer read s buf).1.mCurrentPacket
        = s.mCurrentPacket + (packetsObtained read s : Int)
    ∧ s.mCurrentPacket ≤ (runRefills read k s).mCurrentPacket
    ∧ (runRefills read k { s with mCurrentPacket := 0 }).mCurrentPacket
        = (totalPacketsRead read k { s with mCurrentPacket := 0 } : Int) := by
  refine ⟨HandleOutputBuffer_cursor read s buf, ?_, ?_⟩
  · rw [runRefills_cursor]
    exact Int.le_add_of_nonneg_right (Int.ofNat_nonneg _)
  · rw [runRefills_cursor]
    simp

/-- C7: priming resets the cursor to 0, invokes the refill callback exactly
`kNumberBuffers = 3` times, once for each of buffers 0, 1, 2 in order, and
the resulting state is exactly that of 3 consecutive refill callbacks. -/
theorem prime_refills_each_buffer_once (read : ReadFn) (s : AQPlayerState) :
    (AQPlayerState_AllocateBuffersAndPrime read s).2 = [0, 1, 2]
    ∧ (AQPlayerState_AllocateBuffersAndPrime read s).2.length = kNumberBuffers
    ∧ (AQPlayerState_AllocateBuffersAndPrime read s).1
        = runRefills read kNumberBuffers { s with mCurrentPacket := 0 } :=
  ⟨rfl, rfl, rfl⟩

/-- In the variable frames-per-packet branch the derived buffer size is at
least `maxPacketSize`, so at least one packet always fits there. -/
theorem vbr_mps_le_bufferSize (mps : Nat) :
    mps ≤ clampBufferSize (if maxBufferSize > mps then maxBufferSize else mps) mps := by
  simp only [clampBufferSize, minBufferSize, maxBufferSize]
  split_ifs <;> omega

/-- C3 (amended): `packetsPerBuffer` always equals
`floor(bufferSize / maxPacketSize)`, and it is at least 1 whenever the
format has no fixed frames-per-packet value (the variable-rate fallback) or
`maxPacketSize` is at most the lower bound constant `0x4000`; but the claim
that no accepted input yields `packetsPerBuffer = 0` is false: fixed-rate
inputs whose duration-derived size is smaller than `maxPacketSize` yield 0,
and the code contains no assertion rejecting them. -/
theorem DeriveBufferSize_packetsPerBuffer_floor_div
    (d : AudioFormat) (mps : Nat) (sec : ℚ) (hmps : 0 < mps) :
    (DeriveBufferSize d mps sec).2 = (DeriveBufferSize d mps sec).1 / mps
    ∧ (d.mFramesPerPacket = 0 ∨ mps ≤ minBufferSize →
        1 ≤ (DeriveBufferSize d mps sec).2) := by
  refine ⟨rfl, fun h => ?_⟩
  have hle : mps ≤ (DeriveBufferSize d mps sec).1 := by
    rcases h with h | h
    · have hraw : rawBufferSize d mps sec
          = if maxBufferSize > mps then maxBufferSize else mps := by
        simp [rawBufferSize, h]
      show mps ≤ clampBufferSize (rawBufferSize d mps sec) mps
      rw [hraw]
      exact vbr_mps_le_bufferSize mps
    · exact le_trans h (min_le_clampBufferSize _ _)
  exact (Nat.one_le_div_iff hmps).mpr hle

/-- Witness for C3's amended statement at a variable-rate format with
`maxPacketSize = 4`. -/
theorem DeriveBufferSize_packetsPerBuffer_floor_div_witness :
    (DeriveBufferSize ⟨44100, 0, 0⟩ 4 (1/2)).2
        = (DeriveBufferSize ⟨44100, 0, 0⟩ 4 (1/2)).1 / 4
    ∧ 1 ≤ (DeriveBufferSize ⟨44100, 0, 0⟩ 4 (1/2)).2 :=
  ⟨(DeriveBufferSize_packetsPerBuffer_floor_div ⟨44100, 0, 0⟩ 4 (1/2) (by decide)).1,
   (DeriveBufferSize_packetsPerBuffer_floor_div ⟨44100, 0, 0⟩ 4 (1/2) (by decide)).2
     (Or.inl rfl)⟩

/-- C3 counterexample: for the fixed-rate format with sample rate 1,
frames-per-packet 1 and `maxPacketSize = 0x200000`, with the program's
`seconds = 0.5`, the raw size is `0.5 * 0x200000 = 0x100000` (exact in
binary64), the clamp keeps it (it exceeds the upper bound but not
`maxPacketSize`), and the returned `packetsPerBuffer` is 0. -/
theorem DeriveBufferSize_packetsPerBuffer_zero_cex :
    DeriveBufferSize ⟨1, 1, 4⟩ 0x200000 (1/2) = (0x100000, 0) := by
  have h : rawBufferSize ⟨1, 1, 4⟩ 0x200000 (1/2) = 0x100000 := by
    simp only [rawBufferSize]
    norm_num
  simp only [DeriveBufferSize, clampBufferSize, h]
  norm_num [minBufferSize, maxBufferSize]

/-- C5 (amended): for every fixed frames-per-packet format whose
`maxPacketSize` is at most the upper bound `0x50000`, the final buffer size
lies in `[0x4000, 0x50000]`.  The claim's exception clause is false: when
`maxPacketSize` exceeds the upper bound the code does not guarantee
`bufferSize ≥ maxPacketSize` (the clamp returns the upper bound when the raw
size exceeds `maxPacketSize`, and keeps a raw size strictly between the
bound and `maxPacketSize`), so a single packet need not fit. -/
theorem DeriveBufferSize_range_when_packet_fits_bound
    (d : AudioFormat) (mps : Nat) (sec : ℚ)
    (hfpp : d.mFramesPerPacket ≠ 0) (hmps : mps ≤ maxBufferSize) :
    minBufferSize ≤ (DeriveBufferSize d mps sec).1
    ∧ (DeriveBufferSize d mps sec).1 ≤ maxBufferSize :=
  ⟨min_le_clampBufferSize _ _, clampBufferSize_le_max _ _ hmps⟩

/-- Witness for C5's amended statement at the spec's own scenario:
sample rate 44100, frames-per-packet 1, `maxPacketSize = 2048`. -/
theorem DeriveBufferSize_range_when_packet_fits_bound_witness :
    minBufferSize ≤ (DeriveBufferSize ⟨44100, 1, 4⟩ 2048 (1/2)).1
    ∧ (DeriveBufferSize ⟨44100, 1, 4⟩ 2048 (1/2)).1 ≤ maxBufferSize :=
  DeriveBufferSize_range_when_packet_fits_bound ⟨44100, 1, 4⟩ 2048 (1/2)
    (by decide) (by decide)

/-- C5 counterexample: fixed-rate format with sample rate 1,
frames-per-packet 1 and `maxPacketSize = 0x100000 > 0x50000`.  The raw size
`0.5 * 0x100000 = 0x80000` (exact in binary64) survives the clamp, so the
final size 0x80000 lies outside `[0x4000, 0x50000]` and is also strictly
smaller than `maxPacketSize`: neither the claimed range nor the claimed
`bufferSize ≥ maxPacketSize` fallback holds. -/
theorem DeriveBufferSize_range_cex :
    (DeriveBufferSize ⟨1, 1, 4⟩ 0x100000 (1/2)).1 = 0x80000
    ∧ maxBufferSize < 0x100000
    ∧ maxBufferSize < (DeriveBufferSize ⟨1, 1, 4⟩ 0x100000 (1/2)).1
    ∧ (DeriveBufferSize ⟨1, 1, 4⟩ 0x100000 (1/2)).1 < 0x100000 := by
  have h : rawBufferSize ⟨1, 1, 4⟩ 0x100000 (1/2) = 0x80000 := by
    simp only [rawBufferSize]
    norm_num
  have h2 : (DeriveBufferSize ⟨1, 1, 4⟩ 0x100000 (1/2)).1 = 0x80000 := by
    simp only [DeriveBufferSize, clampBufferSize, h]
    norm_num [minBufferSize, maxBufferSize]
  refine ⟨h2, by norm_num [maxBufferSize], ?_, ?_⟩
  · rw [h2]; norm_num [maxBufferSize]
  · rw [h2]; norm_num

/-- C10: on every input whatsoever the buffer size returned by
`DeriveBufferSize` is at least the lower bound constant `0x4000`. -/
theorem DeriveBufferSize_lower_bound (d : AudioFormat) (mps : Nat) (sec : ℚ) :
    minBufferSize ≤ (DeriveBufferSize d mps sec).1 :=
  min_le_clampBufferSize _ _

/-- C4 (amended): for a fixed frames-per-packet format the size computed
before clamping is the truncation of
`sampleRate / framesPerPacket * targetSeconds * maxPacketSize`, NOT the
spec's `ceil(sampleRate / framesPerPacket * targetSeconds) * maxPacketSize`:
the packet count is not rounded up to an integer before the multiplication.
The code's value never exceeds the spec formula and falls short of it by at
most `maxPacketSize` bytes. -/
theorem rawBufferSize_truncates_below_spec_ceil
    (d : AudioFormat) (mps : Nat) (sec : ℚ)
    (hfpp : d.mFramesPerPacket ≠ 0) (hrate : 0 ≤ d.mSampleRate) (hsec : 0 ≤ sec) :
    rawBufferSize d mps sec ≤ specCeilBufferSize d mps sec
    ∧ specCeilBufferSize d mps sec ≤ rawBufferSize d mps sec + mps := by
  have hx : (0 : ℚ) ≤ d.mSampleRate / (d.mFramesPerPacket : ℚ) * sec :=
    mul_nonneg (div_nonneg hrate (Nat.cast_nonneg _)) hsec
  have hraw : rawBufferSize d mps sec
      = ⌊d.mSampleRate / (d.mFramesPerPacket : ℚ) * sec * (mps : ℚ)⌋₊ := by
    simp [rawBufferSize, hfpp]
  have hspec : specCeilBufferSize d mps sec
      = ⌈d.mSampleRate / (d.mFramesPerPacket : ℚ) * sec⌉₊ * mps := rfl
  set x := d.mSampleRate / (d.mFramesPerPacket : ℚ) * sec with hxdef
  constructor
  · rw [hraw, hspec]
    have h1 : x * (mps : ℚ) ≤ ((⌈x⌉₊ * mps : Nat) : ℚ) := by
      push_cast
      exact mul_le_mul_of_nonneg_right (Nat.le_ceil x) (Nat.cast_nonneg mps)
    calc ⌊x * (mps : ℚ)⌋₊ ≤ ⌊((⌈x⌉₊ * mps : Nat) : ℚ)⌋₊ := Nat.floor_le_floor h1
      _ = ⌈x⌉₊ * mps := Nat.floor_natCast _
  · rw [hraw, hspec]
    have hc : (⌈x⌉₊ : ℚ) < x + 1 := Nat.ceil_lt_add_one hx
    have hf : x * (mps : ℚ) < (⌊x * (mps : ℚ)⌋₊ : ℚ) + 1 := Nat.lt_floor_add_one _
    have h3 : (⌈x⌉₊ : ℚ) * (mps : ℚ) ≤ (x + 1) * (mps : ℚ) :=
      mul_le_mul_of_nonneg_right (le_of_lt hc) (Nat.cast_nonneg mps)
    have h6 : ((⌈x⌉₊ * mps : Nat) : ℚ) < ((⌊x * (mps : ℚ)⌋₊ + mps + 1 : Nat) : ℚ) := by
      push_cast
      nlinarith [Nat.cast_nonneg (α := ℚ) mps]
    have h7 := (Nat.cast_lt (α := ℚ)).mp h6
    omega

/-- Witness for C4's amended statement at sample rate 44100,
frames-per-packet 1024, `maxPacketSize = 1024`. -/
theorem rawBufferSize_truncates_below_spec_ceil_witness :
    rawBufferSize ⟨44100, 1024, 0⟩ 1024 (1/2)
        ≤ specCeilBufferSize ⟨44100, 1024, 0⟩ 1024 (1/2)
    ∧ specCeilBufferSize ⟨44100, 1024, 0⟩ 1024 (1/2)
        ≤ rawBufferSize ⟨44100, 1024, 0⟩ 1024 (1/2) + 1024 :=
  rawBufferSize_truncates_below_spec_ceil ⟨44100, 1024, 0⟩ 1024 (1/2)
    (by decide) (by norm_num) (by norm_num)

/-- C4 counterexample: at sample rate 44100, frames-per-packet 1024,
`maxPacketSize = 1024`, `seconds = 0.5` (every binary64 operation exact,
since 44100 is divided and multiplied by powers of two), the code computes
`44100 / 1024 * 0.5 * 1024 = 22050`, while the spec's formula gives
`ceil(21.533...) * 1024 = 22528`. -/
theorem rawBufferSize_ceil_formula_cex :
    rawBufferSize ⟨44100, 1024, 0⟩ 1024 (1/2) = 22050
    ∧ specCeilBufferSize ⟨44100, 1024, 0⟩ 1024 (1/2) = 22528
    ∧ (22050 : Nat) ≠ 22528 := by
  refine ⟨?_, ?_, by decide⟩
  · simp only [rawBufferSize]
    norm_num
  · simp only [specCeilBufferSize]
    have h : (44100 : ℚ) / (((1024 : Nat) : ℚ)) * (1/2) = 11025 / 512 := by
      norm_num
    rw [h]
    have h2 : ⌈(11025 : ℚ) / 512⌉₊ = 22 := by
      rw [Nat.ceil_eq_iff (by norm_num)]
      norm_num
    rw [h2]

/-- C9 (amended): the program exits with code 0 on normal completion, and
every status routed through `CheckError` (queue creation, queue start) that
is not `noErr` terminates the process with exit code 1 after writing a
diagnostic; a failed open status terminates (via the failed assertion, after
printing a diagnostic) only when it is one of the fifteen result codes
enumerated in `PrintResultCodes` — the claim that EVERY unrecoverable
initialization error is reported and terminates the process is false,
because `PrintResultCodes` silently returns on any other nonzero status. -/
theorem init_errors_via_CheckError_terminate
    (e o q st : Int) (op : String)
    (he : e ≠ noErr) (hq : q ≠ noErr)
    (hterm : (PrintResultCodes o).terminates = false) :
    CheckError e op = some (op, 1)
    ∧ mainOutcome o q st = ProgOutcome.exited 1
    ∧ mainOutcome noErr noErr noErr = ProgOutcome.exited 0
    ∧ (∀ c ∈ [kAudioFileUnspecifiedError, kAudioFileUnsupportedFileTypeError,
        kAudioFileUnsupportedDataFormatError, kAudioFileUnsupportedPropertyError,
        kAudioFileBadPropertySizeError, kAudioFileNotOptimizedError,
        kAudioFileInvalidChunkError, kAudioFileDoesNotAllow64BitDataSizeError,
        kAudioFileInvalidPacketOffsetError, kAudioFileInvalidFileError,
        kAudioFileOperationNotSupportedError, kAudioFileNotOpenError,
        kAudioFileEndOfFileError, kAudioFilePositionError, kAudio_FileNotFoundError],
        (PrintResultCodes c).terminates = true
        ∧ (PrintResultCodes c).diagnostic ≠ none) := by
  refine ⟨by simp [CheckError, he], ?_, by decide, by decide⟩
  simp only [mainOutcome, hterm, Bool.false_eq_true, if_false, CheckError]
  rw [if_neg hq]

/-- Witness for C9's amended statement: a queue-creation failure with status
-50 exits with code 1 after its diagnostic, while the open status -54 does
not terminate by itself; the all-noErr run exits 0. -/
theorem init_errors_via_CheckError_terminate_witness :
    CheckError (-50) "AudioQueueNewOutput " = some ("AudioQueueNewOutput ", 1)
    ∧ mainOutcome (-54) (-50) 0 = ProgOutcome.exited 1
    ∧ mainOutcome noErr noErr noErr = ProgOutcome.exited 0
    ∧ (∀ c ∈ [kAudioFileUnspecifiedError, kAudioFileUnsupportedFileTypeError,
        kAudioFileUnsupportedDataFormatError, kAudioFileUnsupportedPropertyError,
        kAudioFileBadPropertySizeError, kAudioFileNotOptimizedError,
        kAudioFileInvalidChunkError, kAudioFileDoesNotAllow64BitDataSizeError,
        kAudioFileInvalidPacketOffsetError, kAudioFileInvalidFileError,
        kAudioFileOperationNotSupportedError, kAudioFileNotOpenError,
        kAudioFileEndOfFileError, kAudioFilePositionError, kAudio_FileNotFoundError],
        (PrintResultCodes c).terminates = true
        ∧ (PrintResultCodes c).diagnostic ≠ none) :=
  init_errors_via_CheckError_terminate (-50) (-54) (-50) 0 "AudioQueueNewOutput "
    (by decide) (by decide) (by decide)

/-- C9 counterexample: `kAudioFilePermissionsError = -54`, a failure status
of `AudioFileOpenURL`, is not among the codes matched by
`PrintResultCodes`: the handler prints nothing and does not terminate, and
if the remaining inspected statuses succeed the process exits 0 — an
unrecoverable initialization error with neither a diagnostic nor a nonzero
exit. -/
theorem PrintResultCodes_silent_cex :
    PrintResultCodes kAudioFilePermissionsError = ⟨none, false⟩
    ∧ kAudioFilePermissionsError ≠ noErr
    ∧ mainOutcome kAudioFilePermissionsError noErr noErr = ProgOutcome.exited 0 := by
  decide
